import Mathlib

/-!
# TDX ECDSA evidence collection

A shallow embedding of `src/attesters/tdx-ecdsa/collect_evidence.c`:
`tdx_get_report`, `tdx_get_tdel_info`, `tdx_get_tdel_data`, `tdx_gen_quote` and
`tdx_ecdsa_collect_evidence`.

Modelling conventions.

* Memory owned by the caller and reached through a pointer (`hash`,
  `evidence->tdx.quote`, `evidence->type`) is a function from byte offset to
  byte value.  The declared sizes of these objects are in headers outside the
  source tree, so the embedding does not bound the destination of a copy.
* Buffers whose size is fixed by this file or by the driver (the local arrays
  `tdel_info`, `tdel_data`, the driver's quote) are lists of the bytes they
  hold; copying more bytes than such a buffer holds is undefined behaviour and
  is modelled by `Exec.fault`.
* The TDX attestation library and the `open`/`read` system calls are external:
  their outcomes are the fields of `World`, and every call is appended to the
  trace of `Sys`, which also carries the table of open descriptors.
* Error codes are mathematical integers; `-ENCLAVE_ATTESTER_ERR_INVALID` is the
  negation of the code.
-/

set_option linter.unusedVariables false

namespace TdxEcdsa

/-- Constants of the headers this translation unit includes but which are not
part of the source tree: the two attester error codes (`rats-tls/err.h`), the
size of `tdx_report_data_t.d` (`tdx_attest.h`) and `sizeof(evidence->type)`
(`rats-tls/attester.h`).  They are parameters of the embedding. -/
structure Decls where
  ENCLAVE_ATTESTER_ERR_NONE : Int
  ENCLAVE_ATTESTER_ERR_INVALID : Int
  TDX_REPORT_DATA_SIZE : Nat
  TYPE_SIZE : Nat

/-- Modelled from the spec: the macro `SHA256_HASH_SIZE` is defined in a header
outside the source tree; the spec fixes the freshness hash at 32 bytes. -/
def SHA256_HASH_SIZE : Nat := 32

/-- Path macro `TDEL_INFO`. -/
def TDEL_INFO : String := "/sys/firmware/acpi/tables/TDEL"

/-- Path macro `TDEL_DATA`. -/
def TDEL_DATA : String := "/sys/firmware/acpi/tables/data/TDEL"

/-- Size macro `TDEL_INFO_SZ`. -/
def TDEL_INFO_SZ : Nat := 0x38

/-- Size macro `TDEL_DATA_SZ`. -/
def TDEL_DATA_SZ : Nat := 0x10000

/-- Calls that leave the translation unit, in the order they are made. -/
inductive Event where
  | att_get_report (report_data : List Nat)
  | att_get_quote (report_data : List Nat)
  | att_free_quote (p_quote : List Nat)
  | sys_open (path : String) (ret : Int)
  | sys_read (fd : Int) (count : Nat) (ret : Int)

/-- Outcomes of the external calls.
`tdx_att_get_report rd` is true when the library returns `TDX_ATTEST_SUCCESS`;
`tdx_att_get_quote rd` is the quote the library allocates (`p_quote`, whose
length is `p_quote_size`) or `none` when it fails;
`open_ret path` is the value `open(path, O_RDONLY)` returns;
`read_ret fd count` is `none` when `read` fails with `-1`, and otherwise the
bytes the descriptor has available, of which `read` delivers at most `count`. -/
structure World where
  tdx_att_get_report : List Nat → Bool
  tdx_att_get_quote : List Nat → Option (List Nat)
  open_ret : String → Int
  read_ret : Int → Nat → Option (List Nat)

/-- Process state visible to the claims: the trace of external calls and the
list of descriptors that are open. -/
structure Sys where
  trace : List Event
  fds : List Int

/-- The member `tdx` of `attestation_evidence_t`. -/
structure tdx_evidence_t where
  quote : Nat → Nat
  quote_len : Nat

/-- The evidence envelope: the members this file touches. -/
structure attestation_evidence_t where
  type : Nat → Nat
  tdx : tdx_evidence_t

/-- Result of running a function of the file: it returns a value, or it does
not return (failed `assert`, undefined behaviour); in the latter case the state
reached when execution left the defined path is kept. -/
inductive Exec (α : Type) where
  | ret (a : α) : Exec α
  | fault (s : Sys) : Exec α

/-- Value returned by the two TDEL readers and by the collector, with the state
and envelope they leave. -/
structure Ret where
  code : Int
  sys : Sys
  evidence : attestation_evidence_t

/-- Value returned by `tdx_gen_quote` with the state it leaves and the contents
of its two out-parameters `quote_buf` and `*quote_size`. -/
structure QuoteRet where
  code : Int
  sys : Sys
  quote_buf : Nat → Nat
  quote_size : Nat

/-- The report data a driver call carries, for the two calls that take it. -/
def Event.report_data? : Event → Option (List Nat)
  | Event.att_get_report rd => some rd
  | Event.att_get_quote rd => some rd
  | _ => none

/-- State in which an execution ended. -/
def Exec.sysOf {α : Type} (f : α → Sys) : Exec α → Sys
  | .ret a => f a
  | .fault s => s

/-- Append one call to the trace. -/
def Sys.log (s : Sys) (e : Event) : Sys :=
  { s with trace := s.trace ++ [e] }

/-- Conversion of an `int` to `size_t` (64-bit, the only width TDX runs on). -/
def size_t_of_int (k : Int) : Nat := (k % 2 ^ 64).toNat

/-- Memory `dst` after bytes `[off, off+n)` have been overwritten with the first
`n` bytes of `src`. -/
def copy_bytes (dst : Nat → Nat) (off : Nat) (src : List Nat) (n : Nat) : Nat → Nat :=
  fun i => if off ≤ i ∧ i < off + n then src.getD (i - off) 0 else dst i

/-- The bytes `[off, off+len)` of a memory. -/
def slice (m : Nat → Nat) (off len : Nat) : List Nat :=
  (List.range len).map (fun i => m (off + i))

/-- The call `memcpy(dst + off, src, n)`: undefined when `src` holds fewer than
`n` bytes, otherwise bytes `[off, off+n)` of `dst` become `src[0, n)`. -/
def memcpy (dst : Nat → Nat) (off : Nat) (src : List Nat) (n : Nat) : Option (Nat → Nat) :=
  if src.length < n then none
  else some (copy_bytes dst off src n)

/-- The call `snprintf(buf, size, str)` for a format without conversions: at
most `size - 1` bytes of `str` followed by a NUL; nothing when `size` is 0. -/
def snprintf (buf : Nat → Nat) (size : Nat) (str : List Nat) : Nat → Nat :=
  if size = 0 then buf
  else fun i =>
    if i < min str.length (size - 1) then str.getD i 0
    else if i = min str.length (size - 1) then 0
    else buf i

/-- Bytes of the string literal `"tdx_ecdsa"` (without the terminating NUL). -/
def tdx_ecdsa_str : List Nat := [0x74, 0x64, 0x78, 0x5f, 0x65, 0x63, 0x64, 0x73, 0x61]

/-- The system call `open(path, O_RDONLY)`: a non-negative result is a new open
descriptor. -/
def sys_open (w : World) (s : Sys) (path : String) : Int × Sys :=
  let r := w.open_ret path
  (r, { trace := s.trace ++ [Event.sys_open path r],
        fds := if 0 ≤ r then r :: s.fds else s.fds })

/-- Return value of `read(fd, buf, count)` and the bytes it stores in `buf`. -/
def read_value (w : World) (fd : Int) (count : Nat) : Int × List Nat :=
  match w.read_ret fd count with
  | none => (-1, [])
  | some bytes => (((bytes.take count).length : Nat), bytes.take count)

/-- The system call `read(fd, buf, count)`. -/
def sys_read (w : World) (s : Sys) (fd : Int) (count : Nat) : Int × List Nat × Sys :=
  let v := read_value w fd count
  (v.1, v.2, s.log (Event.sys_read fd count v.1))

/-- The static function `tdx_get_report`. -/
def tdx_get_report (w : World) (s : Sys) (report_data : List Nat) : Int × Sys :=
  if w.tdx_att_get_report report_data = true then (0, s.log (Event.att_get_report report_data))
  else (-1, s.log (Event.att_get_report report_data))

/-- Value that `fd = open(...) < 0` stores in `fd`: the comparison binds tighter
than the assignment. -/
def fd_assigned (open_result : Int) : Int := if open_result < 0 then 1 else 0

/-- The function `tdx_get_tdel_info`.  The condition of the first `if` is the
value assigned to `fd`; the read is issued on `fd`. -/
def tdx_get_tdel_info (D : Decls) (w : World) (s : Sys) (ctx : Nat)
    (evidence : attestation_evidence_t) : Exec Ret :=
  let o := sys_open w s TDEL_INFO
  let fd : Int := fd_assigned o.1
  if fd ≠ 0 then
    Exec.ret ⟨-D.ENCLAVE_ATTESTER_ERR_INVALID, o.2, evidence⟩
  else
    let rd := sys_read w o.2 fd TDEL_INFO_SZ
    let tdel_info_sz : Int := rd.1
    let tdel_info : List Nat := rd.2.1
    if tdel_info_sz ≠ (TDEL_INFO_SZ : Int) then
      Exec.ret ⟨-D.ENCLAVE_ATTESTER_ERR_INVALID, rd.2.2, evidence⟩
    else
      match memcpy evidence.tdx.quote 8192 tdel_info TDEL_INFO_SZ with
      | none => Exec.fault rd.2.2
      | some q =>
        Exec.ret ⟨D.ENCLAVE_ATTESTER_ERR_NONE, rd.2.2,
          { evidence with tdx := { evidence.tdx with quote := q } }⟩

/-- The function `tdx_get_tdel_data`.  The third argument of `memcpy` is the
`int` read result converted to `size_t`; the source buffer holds the bytes the
read stored. -/
def tdx_get_tdel_data (D : Decls) (w : World) (s : Sys) (ctx : Nat)
    (evidence : attestation_evidence_t) : Exec Ret :=
  let o := sys_open w s TDEL_DATA
  let fd : Int := fd_assigned o.1
  if fd ≠ 0 then
    Exec.ret ⟨-D.ENCLAVE_ATTESTER_ERR_INVALID, o.2, evidence⟩
  else
    let rd := sys_read w o.2 fd TDEL_DATA_SZ
    let tdel_data_sz : Int := rd.1
    let tdel_data : List Nat := rd.2.1
    match memcpy evidence.tdx.quote (8192 + TDEL_INFO_SZ) tdel_data (size_t_of_int tdel_data_sz) with
    | none => Exec.fault rd.2.2
    | some q =>
      Exec.ret ⟨D.ENCLAVE_ATTESTER_ERR_NONE, rd.2.2,
        { evidence with tdx := { evidence.tdx with quote := q } }⟩

/-- The local `report_data` of `tdx_gen_quote` after `= { { 0 } }` and
`memcpy(report_data.d, hash, SHA256_HASH_SIZE)`. -/
def report_data_of (D : Decls) (hash : Nat → Nat) : List Nat :=
  (List.range SHA256_HASH_SIZE).map hash
    ++ List.replicate (D.TDX_REPORT_DATA_SIZE - SHA256_HASH_SIZE) 0

/-- The static function `tdx_gen_quote` (the `VSOCK` branch, which the file
selects with `#define VSOCK`).  `hash = none` is the null pointer.  A failing
`assert(sizeof(report_data.d) >= SHA256_HASH_SIZE)` ends the execution without
a return value; `p_quote_size` is the length of the quote the library returns. -/
def tdx_gen_quote (D : Decls) (w : World) (s : Sys) (hash : Option (Nat → Nat))
    (quote_buf : Nat → Nat) (quote_size : Nat) : Exec QuoteRet :=
  match hash with
  | none => Exec.ret ⟨-1, s, quote_buf, quote_size⟩
  | some h =>
    if D.TDX_REPORT_DATA_SIZE < SHA256_HASH_SIZE then Exec.fault s
    else
      let report_data := report_data_of D h
      let g := tdx_get_report w s report_data
      if g.1 ≠ 0 then Exec.ret ⟨-1, g.2, quote_buf, quote_size⟩
      else
        let s2 := g.2.log (Event.att_get_quote report_data)
        match w.tdx_att_get_quote report_data with
        | none => Exec.ret ⟨-1, s2, quote_buf, quote_size⟩
        | some p_quote =>
          let p_quote_size := p_quote.length
          if p_quote_size > quote_size then
            Exec.ret ⟨-1, s2.log (Event.att_free_quote p_quote), quote_buf, quote_size⟩
          else
            match memcpy quote_buf 0 p_quote p_quote_size with
            | none => Exec.fault s2
            | some qb =>
              Exec.ret ⟨0, s2.log (Event.att_free_quote p_quote), qb, p_quote_size⟩

/-- The function `tdx_ecdsa_collect_evidence`.  `ctx`, `algo` and `hash_len`
are only logged or unused in the source. -/
def tdx_ecdsa_collect_evidence (D : Decls) (w : World) (s : Sys) (ctx : Nat)
    (evidence : attestation_evidence_t) (algo : Nat) (hash : Option (Nat → Nat))
    (hash_len : Nat) : Exec Ret :=
  match tdx_gen_quote D w s hash evidence.tdx.quote evidence.tdx.quote_len with
  | Exec.fault s1 => Exec.fault s1
  | Exec.ret g =>
    let ev1 : attestation_evidence_t :=
      { evidence with tdx := { quote := g.quote_buf, quote_len := g.quote_size } }
    if g.code ≠ 0 then
      Exec.ret ⟨-D.ENCLAVE_ATTESTER_ERR_INVALID, g.sys, ev1⟩
    else
      match tdx_get_tdel_info D w g.sys ctx ev1 with
      | Exec.fault s2 => Exec.fault s2
      | Exec.ret i =>
        if i.code ≠ D.ENCLAVE_ATTESTER_ERR_NONE then
          Exec.ret ⟨-D.ENCLAVE_ATTESTER_ERR_INVALID, i.sys, i.evidence⟩
        else
          match tdx_get_tdel_data D w i.sys ctx i.evidence with
          | Exec.fault s3 => Exec.fault s3
          | Exec.ret d =>
            if d.code ≠ D.ENCLAVE_ATTESTER_ERR_NONE then
              Exec.ret ⟨-D.ENCLAVE_ATTESTER_ERR_INVALID, d.sys, d.evidence⟩
            else
              Exec.ret ⟨D.ENCLAVE_ATTESTER_ERR_NONE, d.sys,
                { d.evidence with
                  type := snprintf d.evidence.type D.TYPE_SIZE tdx_ecdsa_str }⟩

/-! ## Concrete inputs used to run the embedding -/

/-- A sample instantiation of the header constants: success code 0, a non-zero
invalid code, a 64-byte report-data field and a 32-byte type buffer. -/
def sampleDecls : Decls :=
  { ENCLAVE_ATTESTER_ERR_NONE := 0, ENCLAVE_ATTESTER_ERR_INVALID := 3,
    TDX_REPORT_DATA_SIZE := 64, TYPE_SIZE := 32 }

/-- A process that has only the three standard descriptors open and has made no
call yet. -/
def sys0 : Sys := { trace := [], fds := [0, 1, 2] }

/-- An envelope whose buffers are zero and whose `quote_len` holds `cap`. -/
def evidence0 (cap : Nat) : attestation_evidence_t :=
  { type := fun _ => 0, tdx := { quote := fun _ => 0, quote_len := cap } }

/-- The hash of 32 zero bytes. -/
def zeroHash : Nat → Nat := fun _ => 0

/-- A world in which the driver succeeds with a quote of `n` bytes `0xAA`, the
two opens return descriptors 3 and 4, the info read delivers `info` and the data
read delivers `data`. -/
def sampleWorld (n : Nat) (info data : Option (List Nat)) : World :=
  { tdx_att_get_report := fun _ => true,
    tdx_att_get_quote := fun _ => some (List.replicate n 0xAA),
    open_ret := fun p => if p = TDEL_INFO then 3 else 4,
    read_ret := fun _ count => if count = TDEL_INFO_SZ then info else data }

/-- A world in which every `open` returns descriptor 0 and every read delivers
four bytes. -/
def stdinClosedWorld : World :=
  { tdx_att_get_report := fun _ => true,
    tdx_att_get_quote := fun _ => some [],
    open_ret := fun _ => 0,
    read_ret := fun _ _ => some [1, 2, 3, 4] }

/-- A process whose standard input is closed and which has made no call yet. -/
def stdinClosedSys : Sys := { trace := [], fds := [1, 2] }

/-- A world in which `tdx_att_get_report` fails. -/
def reportFailWorld : World :=
  { tdx_att_get_report := fun _ => false,
    tdx_att_get_quote := fun _ => none,
    open_ret := fun _ => -1,
    read_ret := fun _ _ => none }

/-- The state after the three driver calls of a run of `tdx_gen_quote` that
reaches `tdx_att_free_quote`. -/
def after_driver (s : Sys) (rd q : List Nat) : Sys :=
  ((s.log (Event.att_get_report rd)).log (Event.att_get_quote rd)).log (Event.att_free_quote q)

/-- The state after both TDEL readers have run on their success path from `s`. -/
def after_tdel (w : World) (s : Sys) : Sys :=
  (sys_read w (sys_open w (sys_read w (sys_open w s TDEL_INFO).2 0 TDEL_INFO_SZ).2.2
    TDEL_DATA).2 0 TDEL_DATA_SZ).2.2

/-- The conditions under which every step of the collector succeeds: the hash
is non-null, get-report and get-quote succeed, the quote fits the capacity found
in `quote_len`, both opens succeed and the info read returns `TDEL_INFO_SZ`. -/
def success_conditions (D : Decls) (w : World) (evidence : attestation_evidence_t)
    (hash : Option (Nat → Nat)) : Prop :=
  ∃ (h : Nat → Nat) (q : List Nat), hash = some h ∧
    w.tdx_att_get_report (report_data_of D h) = true ∧
    w.tdx_att_get_quote (report_data_of D h) = some q ∧
    q.length ≤ evidence.tdx.quote_len ∧
    0 ≤ w.open_ret TDEL_INFO ∧ 0 ≤ w.open_ret TDEL_DATA ∧
    (read_value w 0 TDEL_INFO_SZ).1 = (TDEL_INFO_SZ : Int)

/-! ## Outcome of each function, case by case -/

section Outcomes

variable (D : Decls) (w : World) (s : Sys) (ctx : Nat) (evidence : attestation_evidence_t)

theorem slice_length (m : Nat → Nat) (off len : Nat) : (slice m off len).length = len := by
  simp [slice]

theorem slice_copy_bytes_same (dst : Nat → Nat) (off : Nat) (src : List Nat) (n : Nat)
    (hn : n ≤ src.length) : slice (copy_bytes dst off src n) off n = src.take n := by
  apply List.ext_getElem
  · simp [slice, hn]
  · intro i h1 h2
    simp only [slice, List.length_map, List.length_range] at h1
    simp [slice, copy_bytes, h1, List.getD_eq_getElem?_getD, List.getElem?_eq_getElem (Nat.lt_of_lt_of_le h1 hn)]

theorem slice_copy_bytes_disjoint (dst : Nat → Nat) (off : Nat) (src : List Nat) (n : Nat)
    (off2 len : Nat) (hd : off2 + len ≤ off ∨ off + n ≤ off2) :
    slice (copy_bytes dst off src n) off2 len = slice dst off2 len := by
  apply List.ext_getElem
  · simp [slice]
  · intro i h1 h2
    simp only [slice, List.length_map, List.length_range] at h1
    have : ¬ (off ≤ off2 + i ∧ off2 + i < off + n) := by omega
    simp [slice, copy_bytes, this]

theorem read_value_length (fd : Int) (count : Nat) (h : 0 ≤ (read_value w fd count).1) :
    (((read_value w fd count).2.length : Nat) : Int) = (read_value w fd count).1 := by
  unfold read_value at *
  cases hr : w.read_ret fd count with
  | none => simp [hr] at h
  | some b => simp

theorem gen_quote_null (qb : Nat → Nat) (qs : Nat) :
    tdx_gen_quote D w s none qb qs = Exec.ret ⟨-1, s, qb, qs⟩ := rfl

theorem gen_quote_report_fail (h : Nat → Nat) (qb : Nat → Nat) (qs : Nat)
    (hassert : SHA256_HASH_SIZE ≤ D.TDX_REPORT_DATA_SIZE)
    (hrep : w.tdx_att_get_report (report_data_of D h) = false) :
    tdx_gen_quote D w s (some h) qb qs
      = Exec.ret ⟨-1, s.log (Event.att_get_report (report_data_of D h)), qb, qs⟩ := by
  simp [tdx_gen_quote, tdx_get_report, hrep, Nat.not_lt.mpr hassert]

theorem gen_quote_quote_fail (h : Nat → Nat) (qb : Nat → Nat) (qs : Nat)
    (hassert : SHA256_HASH_SIZE ≤ D.TDX_REPORT_DATA_SIZE)
    (hrep : w.tdx_att_get_report (report_data_of D h) = true)
    (hquote : w.tdx_att_get_quote (report_data_of D h) = none) :
    tdx_gen_quote D w s (some h) qb qs
      = Exec.ret ⟨-1, (s.log (Event.att_get_report (report_data_of D h))).log
          (Event.att_get_quote (report_data_of D h)), qb, qs⟩ := by
  simp [tdx_gen_quote, tdx_get_report, hrep, hquote, Nat.not_lt.mpr hassert]

theorem gen_quote_too_small (h : Nat → Nat) (qb : Nat → Nat) (qs : Nat) (q : List Nat)
    (hassert : SHA256_HASH_SIZE ≤ D.TDX_REPORT_DATA_SIZE)
    (hrep : w.tdx_att_get_report (report_data_of D h) = true)
    (hquote : w.tdx_att_get_quote (report_data_of D h) = some q)
    (hbig : qs < q.length) :
    tdx_gen_quote D w s (some h) qb qs
      = Exec.ret ⟨-1, ((s.log (Event.att_get_report (report_data_of D h))).log
          (Event.att_get_quote (report_data_of D h))).log (Event.att_free_quote q), qb, qs⟩ := by
  simp [tdx_gen_quote, tdx_get_report, hrep, hquote, Nat.not_lt.mpr hassert, hbig]

theorem gen_quote_ok (h : Nat → Nat) (qb : Nat → Nat) (qs : Nat) (q : List Nat)
    (hassert : SHA256_HASH_SIZE ≤ D.TDX_REPORT_DATA_SIZE)
    (hrep : w.tdx_att_get_report (report_data_of D h) = true)
    (hquote : w.tdx_att_get_quote (report_data_of D h) = some q)
    (hfit : q.length ≤ qs) :
    tdx_gen_quote D w s (some h) qb qs
      = Exec.ret ⟨0, ((s.log (Event.att_get_report (report_data_of D h))).log
          (Event.att_get_quote (report_data_of D h))).log (Event.att_free_quote q),
          copy_bytes qb 0 q q.length, q.length⟩ := by
  simp [tdx_gen_quote, tdx_get_report, hrep, hquote, Nat.not_lt.mpr hassert,
    Nat.not_lt.mpr hfit, memcpy]

theorem tdel_info_open_fail (hopen : w.open_ret TDEL_INFO < 0) :
    tdx_get_tdel_info D w s ctx evidence
      = Exec.ret ⟨-D.ENCLAVE_ATTESTER_ERR_INVALID, (sys_open w s TDEL_INFO).2, evidence⟩ := by
  simp [tdx_get_tdel_info, fd_assigned, sys_open, hopen]

theorem tdel_info_mismatch (hopen : 0 ≤ w.open_ret TDEL_INFO)
    (hk : (read_value w 0 TDEL_INFO_SZ).1 ≠ (TDEL_INFO_SZ : Int)) :
    tdx_get_tdel_info D w s ctx evidence
      = Exec.ret ⟨-D.ENCLAVE_ATTESTER_ERR_INVALID,
          (sys_read w (sys_open w s TDEL_INFO).2 0 TDEL_INFO_SZ).2.2, evidence⟩ := by
  simp [tdx_get_tdel_info, fd_assigned, sys_open, Int.not_lt.mpr hopen, sys_read, hk]

theorem tdel_info_ok (hopen : 0 ≤ w.open_ret TDEL_INFO)
    (hk : (read_value w 0 TDEL_INFO_SZ).1 = (TDEL_INFO_SZ : Int)) :
    tdx_get_tdel_info D w s ctx evidence
      = Exec.ret ⟨D.ENCLAVE_ATTESTER_ERR_NONE,
          (sys_read w (sys_open w s TDEL_INFO).2 0 TDEL_INFO_SZ).2.2,
          { evidence with tdx := { evidence.tdx with
              quote := copy_bytes evidence.tdx.quote 8192
                (read_value w 0 TDEL_INFO_SZ).2 TDEL_INFO_SZ } }⟩ := by
  have hlen := read_value_length w 0 TDEL_INFO_SZ (by rw [hk]; exact Int.ofNat_nonneg _)
  rw [hk] at hlen
  have hlen2 : (read_value w 0 TDEL_INFO_SZ).2.length = TDEL_INFO_SZ := by exact_mod_cast hlen
  simp [tdx_get_tdel_info, fd_assigned, sys_open, Int.not_lt.mpr hopen, sys_read, hk, memcpy,
    hlen2]

theorem tdel_data_open_fail (hopen : w.open_ret TDEL_DATA < 0) :
    tdx_get_tdel_data D w s ctx evidence
      = Exec.ret ⟨-D.ENCLAVE_ATTESTER_ERR_INVALID, (sys_open w s TDEL_DATA).2, evidence⟩ := by
  simp [tdx_get_tdel_data, fd_assigned, sys_open, hopen]

theorem size_t_of_int_nonneg (k : Nat) (hk : k < 2 ^ 64) : size_t_of_int (k : Int) = k := by
  unfold size_t_of_int
  have : ((k : Int) % 2 ^ 64) = (k : Int) := Int.emod_eq_of_lt (Int.ofNat_nonneg _) (by exact_mod_cast hk)
  rw [this]; simp

theorem read_value_le (fd : Int) (count : Nat) : (read_value w fd count).2.length ≤ count := by
  unfold read_value
  cases hr : w.read_ret fd count with
  | none => simp
  | some b => simp

theorem tdel_data_ok (hopen : 0 ≤ w.open_ret TDEL_DATA)
    (hk : 0 ≤ (read_value w 0 TDEL_DATA_SZ).1) :
    tdx_get_tdel_data D w s ctx evidence
      = Exec.ret ⟨D.ENCLAVE_ATTESTER_ERR_NONE,
          (sys_read w (sys_open w s TDEL_DATA).2 0 TDEL_DATA_SZ).2.2,
          { evidence with tdx := { evidence.tdx with
              quote := copy_bytes evidence.tdx.quote (8192 + TDEL_INFO_SZ)
                (read_value w 0 TDEL_DATA_SZ).2 (read_value w 0 TDEL_DATA_SZ).2.length } }⟩ := by
  have hlen := read_value_length w 0 TDEL_DATA_SZ hk
  have hle := read_value_le w 0 TDEL_DATA_SZ
  have hsz : size_t_of_int (read_value w 0 TDEL_DATA_SZ).1
      = (read_value w 0 TDEL_DATA_SZ).2.length := by
    rw [← hlen]
    apply size_t_of_int_nonneg
    have : TDEL_DATA_SZ < 2 ^ 64 := by decide
    omega
  simp [tdx_get_tdel_data, fd_assigned, sys_open, Int.not_lt.mpr hopen, sys_read, memcpy, hsz]

theorem tdel_data_read_error (hopen : 0 ≤ w.open_ret TDEL_DATA)
    (herr : w.read_ret 0 TDEL_DATA_SZ = none) :
    tdx_get_tdel_data D w s ctx evidence
      = Exec.fault (sys_read w (sys_open w s TDEL_DATA).2 0 TDEL_DATA_SZ).2.2 := by
  have hv : read_value w 0 TDEL_DATA_SZ = (-1, []) := by simp [read_value, herr]
  have hsz : size_t_of_int (-1) = 18446744073709551615 := by decide
  simp [tdx_get_tdel_data, fd_assigned, sys_open, Int.not_lt.mpr hopen, sys_read, memcpy, hv, hsz]

end Outcomes

/-! ## The collector on its success path -/

theorem collect_success_eq (D : Decls) (w : World) (s : Sys) (ctx algo hash_len : Nat)
    (evidence : attestation_evidence_t) (h : Nat → Nat) (q : List Nat)
    (hassert : SHA256_HASH_SIZE ≤ D.TDX_REPORT_DATA_SIZE)
    (hrep : w.tdx_att_get_report (report_data_of D h) = true)
    (hquote : w.tdx_att_get_quote (report_data_of D h) = some q)
    (hfit : q.length ≤ evidence.tdx.quote_len)
    (hopen_info : 0 ≤ w.open_ret TDEL_INFO) (hopen_data : 0 ≤ w.open_ret TDEL_DATA)
    (hinfo : (read_value w 0 TDEL_INFO_SZ).1 = (TDEL_INFO_SZ : Int))
    (hdata : 0 ≤ (read_value w 0 TDEL_DATA_SZ).1) :
    tdx_ecdsa_collect_evidence D w s ctx evidence algo (some h) hash_len
      = Exec.ret ⟨D.ENCLAVE_ATTESTER_ERR_NONE,
          after_tdel w (after_driver s (report_data_of D h) q),
          { type := snprintf evidence.type D.TYPE_SIZE tdx_ecdsa_str,
            tdx := { quote := copy_bytes (copy_bytes (copy_bytes evidence.tdx.quote 0 q q.length)
                        8192 (read_value w 0 TDEL_INFO_SZ).2 TDEL_INFO_SZ)
                        (8192 + TDEL_INFO_SZ) (read_value w 0 TDEL_DATA_SZ).2
                        (read_value w 0 TDEL_DATA_SZ).2.length,
                     quote_len := q.length } }⟩ := by
  unfold tdx_ecdsa_collect_evidence
  rw [gen_quote_ok D w s h _ _ q hassert hrep hquote hfit]
  simp only [ne_eq, not_true_eq_false, if_false]
  rw [tdel_info_ok D w _ ctx _ hopen_info hinfo]
  simp only [ne_eq, not_true_eq_false, if_false]
  rw [tdel_data_ok D w _ ctx _ hopen_data hdata]
  simp only [ne_eq, not_true_eq_false, if_false]
  rfl

theorem read_value_some (w : World) (fd : Int) (count : Nat) (b : List Nat)
    (hr : w.read_ret fd count = some b) (hb : b.length ≤ count) :
    read_value w fd count = ((b.length : Int), b) := by
  simp [read_value, hr, List.take_of_length_le hb, Nat.min_eq_left hb]

theorem snprintf_tdx_ecdsa (buf : Nat → Nat) (size : Nat)
    (hsize : tdx_ecdsa_str.length + 1 ≤ size) :
    slice (snprintf buf size tdx_ecdsa_str) 0 (tdx_ecdsa_str.length + 1) = tdx_ecdsa_str ++ [0] := by
  have h9 : tdx_ecdsa_str.length = 9 := rfl
  rw [h9] at hsize
  have hmin : min 9 (size - 1) = 9 := by omega
  have hs : size ≠ 0 := by omega
  simp [slice, snprintf, hs, tdx_ecdsa_str, List.range_succ, hmin]

/-! ## Claims -/

/-- C1: for every non-null hash (its first 32 bytes are read), when get-report
succeeds, get-quote succeeds with a quote `q` whose length is at most the
`quote_len` found on entry and at most 8192, both opens succeed, the info read
delivers exactly `0x38` bytes `I` and the data read delivers `Dt` with at most
`0x10000` bytes, `tdx_ecdsa_collect_evidence` returns
`ENCLAVE_ATTESTER_ERR_NONE` with `quote_len = |q|`, `quote[0,|q|) = q`,
`quote[8192, 8192+0x38) = I`, `quote[8192+0x38, 8192+0x38+|Dt|) = Dt` and `type`
holding `"tdx_ecdsa"` followed by NUL.  The two conditions on header constants
say that the source's `assert` holds and that the type buffer has room for the
tag. -/
theorem collect_evidence_fills_envelope (D : Decls) (w : World) (s : Sys)
    (ctx algo hash_len : Nat) (evidence : attestation_evidence_t) (h : Nat → Nat)
    (q I Dt : List Nat)
    (hassert : SHA256_HASH_SIZE ≤ D.TDX_REPORT_DATA_SIZE)
    (htype : tdx_ecdsa_str.length + 1 ≤ D.TYPE_SIZE)
    (hrep : w.tdx_att_get_report (report_data_of D h) = true)
    (hquote : w.tdx_att_get_quote (report_data_of D h) = some q)
    (hfit : q.length ≤ evidence.tdx.quote_len) (hregion : q.length ≤ 8192)
    (hopen_info : 0 ≤ w.open_ret TDEL_INFO) (hopen_data : 0 ≤ w.open_ret TDEL_DATA)
    (hinfo : w.read_ret 0 TDEL_INFO_SZ = some I) (hI : I.length = TDEL_INFO_SZ)
    (hdata : w.read_ret 0 TDEL_DATA_SZ = some Dt) (hDt : Dt.length ≤ TDEL_DATA_SZ) :
    ∃ r : Ret,
      tdx_ecdsa_collect_evidence D w s ctx evidence algo (some h) hash_len = Exec.ret r ∧
      r.code = D.ENCLAVE_ATTESTER_ERR_NONE ∧
      r.evidence.tdx.quote_len = q.length ∧
      slice r.evidence.tdx.quote 0 q.length = q ∧
      slice r.evidence.tdx.quote 8192 TDEL_INFO_SZ = I ∧
      slice r.evidence.tdx.quote (8192 + TDEL_INFO_SZ) Dt.length = Dt ∧
      slice r.evidence.type 0 (tdx_ecdsa_str.length + 1) = tdx_ecdsa_str ++ [0] := by
  have hvi := read_value_some w 0 TDEL_INFO_SZ I hinfo (Nat.le_of_eq hI)
  have hvd := read_value_some w 0 TDEL_DATA_SZ Dt hdata hDt
  have h1 : (read_value w 0 TDEL_INFO_SZ).1 = (TDEL_INFO_SZ : Int) := by rw [hvi, hI]
  have h2 : 0 ≤ (read_value w 0 TDEL_DATA_SZ).1 := by rw [hvd]; exact Int.ofNat_nonneg _
  refine ⟨_, collect_success_eq D w s ctx algo hash_len evidence h q hassert hrep hquote hfit
    hopen_info hopen_data h1 h2, rfl, rfl, ?_, ?_, ?_, ?_⟩
  · show slice (copy_bytes (copy_bytes (copy_bytes evidence.tdx.quote 0 q q.length) 8192 _ _)
      (8192 + TDEL_INFO_SZ) _ _) 0 q.length = q
    rw [slice_copy_bytes_disjoint _ _ _ _ _ _ (Or.inl (by omega)),
      slice_copy_bytes_disjoint _ _ _ _ _ _ (Or.inl (by omega)),
      slice_copy_bytes_same _ _ _ _ (Nat.le_refl _), List.take_length]
  · show slice (copy_bytes (copy_bytes (copy_bytes evidence.tdx.quote 0 q q.length) 8192 _ _)
      (8192 + TDEL_INFO_SZ) _ _) 8192 TDEL_INFO_SZ = I
    rw [slice_copy_bytes_disjoint _ _ _ _ _ _ (Or.inl (Nat.le_refl _)), hvi,
      slice_copy_bytes_same _ _ _ _ (Nat.le_of_eq hI.symm), List.take_of_length_le (Nat.le_of_eq hI)]
  · show slice (copy_bytes (copy_bytes (copy_bytes evidence.tdx.quote 0 q q.length) 8192 _ _)
      (8192 + TDEL_INFO_SZ) _ _) (8192 + TDEL_INFO_SZ) Dt.length = Dt
    rw [hvd, slice_copy_bytes_same _ _ _ _ (Nat.le_refl _), List.take_length]
  · exact snprintf_tdx_ecdsa _ _ htype

/-- Witness of C1: the zero hash, a 4000-byte quote, 56 info bytes, 100 data
bytes. -/
theorem collect_evidence_fills_envelope_witness :
    ∃ r : Ret,
      tdx_ecdsa_collect_evidence sampleDecls
        (sampleWorld 4000 (some (List.replicate 56 1)) (some (List.replicate 100 2)))
        sys0 0 (evidence0 8192) 0 (some zeroHash) 32 = Exec.ret r ∧
      r.code = sampleDecls.ENCLAVE_ATTESTER_ERR_NONE ∧
      r.evidence.tdx.quote_len = (List.replicate 4000 0xAA).length ∧
      slice r.evidence.tdx.quote 0 (List.replicate 4000 0xAA).length = List.replicate 4000 0xAA ∧
      slice r.evidence.tdx.quote 8192 TDEL_INFO_SZ = List.replicate 56 1 ∧
      slice r.evidence.tdx.quote (8192 + TDEL_INFO_SZ) (List.replicate 100 2).length
        = List.replicate 100 2 ∧
      slice r.evidence.type 0 (tdx_ecdsa_str.length + 1) = tdx_ecdsa_str ++ [0] :=
  collect_evidence_fills_envelope sampleDecls
    (sampleWorld 4000 (some (List.replicate 56 1)) (some (List.replicate 100 2)))
    sys0 0 0 32 (evidence0 8192) zeroHash (List.replicate 4000 0xAA) (List.replicate 56 1)
    (List.replicate 100 2) (by decide) (by decide) rfl rfl
    (by rw [List.length_replicate]; decide) (by rw [List.length_replicate]; decide)
    (by decide) (by decide) rfl (by rw [List.length_replicate]; rfl) rfl
    (by rw [List.length_replicate]; decide)

/-- C2: when get-quote succeeds with a quote longer than the capacity passed to
`tdx_gen_quote` (the `quote_len` found on entry), `tdx_gen_quote` returns `-1`
with its two out-parameters untouched after exactly the calls get-report,
get-quote and one free-quote of the driver's quote, and
`tdx_ecdsa_collect_evidence` returns `-ENCLAVE_ATTESTER_ERR_INVALID`, which is
not the success code, with the whole envelope (quote, `quote_len`, type)
unchanged, no descriptor opened and no `open` or `read` issued. -/
theorem quote_over_capacity_fails (D : Decls) (w : World) (s : Sys)
    (ctx algo hash_len : Nat) (evidence : attestation_evidence_t) (h : Nat → Nat)
    (q : List Nat)
    (hassert : SHA256_HASH_SIZE ≤ D.TDX_REPORT_DATA_SIZE)
    (hcodes : -D.ENCLAVE_ATTESTER_ERR_INVALID ≠ D.ENCLAVE_ATTESTER_ERR_NONE)
    (hrep : w.tdx_att_get_report (report_data_of D h) = true)
    (hquote : w.tdx_att_get_quote (report_data_of D h) = some q)
    (hbig : evidence.tdx.quote_len < q.length) :
    (∃ g : QuoteRet,
      tdx_gen_quote D w s (some h) evidence.tdx.quote evidence.tdx.quote_len = Exec.ret g ∧
      g.code = -1 ∧
      g.sys.trace = s.trace ++ [Event.att_get_report (report_data_of D h),
        Event.att_get_quote (report_data_of D h), Event.att_free_quote q] ∧
      g.quote_buf = evidence.tdx.quote ∧ g.quote_size = evidence.tdx.quote_len) ∧
    (∃ r : Ret,
      tdx_ecdsa_collect_evidence D w s ctx evidence algo (some h) hash_len = Exec.ret r ∧
      r.code = -D.ENCLAVE_ATTESTER_ERR_INVALID ∧
      r.code ≠ D.ENCLAVE_ATTESTER_ERR_NONE ∧
      r.evidence = evidence ∧
      r.sys.trace = s.trace ++ [Event.att_get_report (report_data_of D h),
        Event.att_get_quote (report_data_of D h), Event.att_free_quote q] ∧
      r.sys.fds = s.fds) := by
  have hg := gen_quote_too_small D w s h evidence.tdx.quote evidence.tdx.quote_len q
    hassert hrep hquote hbig
  refine ⟨⟨_, hg, rfl, by simp [Sys.log], rfl, rfl⟩, ?_⟩
  refine ⟨⟨-D.ENCLAVE_ATTESTER_ERR_INVALID, after_driver s (report_data_of D h) q, evidence⟩,
    ?_, rfl, hcodes, rfl, by simp [after_driver, Sys.log], rfl⟩
  unfold tdx_ecdsa_collect_evidence
  rw [hg]
  rfl

/-- Witness of C2: a 4000-byte quote offered to an envelope whose `quote_len`
holds 100. -/
theorem quote_over_capacity_fails_witness :
    (∃ g : QuoteRet,
      tdx_gen_quote sampleDecls (sampleWorld 4000 none none) sys0 (some zeroHash)
        (evidence0 100).tdx.quote (evidence0 100).tdx.quote_len = Exec.ret g ∧
      g.code = -1 ∧
      g.sys.trace = sys0.trace ++ [Event.att_get_report (report_data_of sampleDecls zeroHash),
        Event.att_get_quote (report_data_of sampleDecls zeroHash),
        Event.att_free_quote (List.replicate 4000 0xAA)] ∧
      g.quote_buf = (evidence0 100).tdx.quote ∧ g.quote_size = (evidence0 100).tdx.quote_len) ∧
    (∃ r : Ret,
      tdx_ecdsa_collect_evidence sampleDecls (sampleWorld 4000 none none) sys0 0
        (evidence0 100) 0 (some zeroHash) 32 = Exec.ret r ∧
      r.code = -sampleDecls.ENCLAVE_ATTESTER_ERR_INVALID ∧
      r.code ≠ sampleDecls.ENCLAVE_ATTESTER_ERR_NONE ∧
      r.evidence = evidence0 100 ∧
      r.sys.trace = sys0.trace ++ [Event.att_get_report (report_data_of sampleDecls zeroHash),
        Event.att_get_quote (report_data_of sampleDecls zeroHash),
        Event.att_free_quote (List.replicate 4000 0xAA)] ∧
      r.sys.fds = sys0.fds) :=
  quote_over_capacity_fails sampleDecls (sampleWorld 4000 none none) sys0 0 0 32
    (evidence0 100) zeroHash (List.replicate 4000 0xAA) (by decide) (by decide) rfl rfl
    (by rw [List.length_replicate]; decide)

/-- Counterexample for C3: the driver returns a 9000-byte quote and `quote_len`
holds 9000 on entry.  `tdx_gen_quote` accepts the quote and its copy writes
offset 8999 of the quote buffer (zero before, `0xAA` after), and the collector
returns the success code. -/
theorem oversized_quote_accepted_when_quote_len_allows :
    ∃ (g : QuoteRet) (r : Ret),
      tdx_gen_quote sampleDecls
        (sampleWorld 9000 (some (List.replicate 56 1)) (some (List.replicate 100 2))) sys0
        (some zeroHash) (evidence0 9000).tdx.quote (evidence0 9000).tdx.quote_len = Exec.ret g ∧
      g.code = 0 ∧ (evidence0 9000).tdx.quote 8999 = 0 ∧ g.quote_buf 8999 = 0xAA ∧
      tdx_ecdsa_collect_evidence sampleDecls
        (sampleWorld 9000 (some (List.replicate 56 1)) (some (List.replicate 100 2))) sys0 0
        (evidence0 9000) 0 (some zeroHash) 32 = Exec.ret r ∧
      r.code = sampleDecls.ENCLAVE_ATTESTER_ERR_NONE ∧ r.evidence.tdx.quote 8999 = 0xAA := by
  have hlen : (List.replicate 9000 0xAA).length = 9000 := List.length_replicate _ _
  have hget : (List.replicate 9000 0xAA).getD 8999 0 = 0xAA := by
    rw [List.getD_eq_getElem?_getD, List.getElem?_replicate_of_lt (by decide)]
    rfl
  have hvi := read_value_some
    (sampleWorld 9000 (some (List.replicate 56 1)) (some (List.replicate 100 2))) 0 TDEL_INFO_SZ
    (List.replicate 56 1) rfl (by rw [List.length_replicate]; decide)
  have hvd := read_value_some
    (sampleWorld 9000 (some (List.replicate 56 1)) (some (List.replicate 100 2))) 0 TDEL_DATA_SZ
    (List.replicate 100 2) rfl (by rw [List.length_replicate]; decide)
  rw [List.length_replicate] at hvi hvd
  refine ⟨_, _, gen_quote_ok sampleDecls _ sys0 zeroHash _ _ (List.replicate 9000 0xAA)
      (by decide) rfl rfl (by rw [hlen]; decide), rfl, rfl, ?_,
    collect_success_eq sampleDecls _ sys0 0 0 32 (evidence0 9000) zeroHash
      (List.replicate 9000 0xAA) (by decide) rfl rfl (by rw [hlen]; decide) (by decide)
      (by decide) ?_ ?_, rfl, ?_⟩
  · simp only [copy_bytes, hlen]
    rw [if_pos (by decide), Nat.sub_zero, hget]
  · rw [hvi]
    rfl
  · rw [hvd]
    decide
  · simp only [copy_bytes, hlen, hvd, List.length_replicate]
    rw [if_neg (by decide), if_neg (by decide), if_pos (by decide), Nat.sub_zero, hget]

/-- C3 (amended): when the driver returns a quote longer than 8192 bytes and
the `quote_len` found on entry is at most 8192, the quote copy is not made:
`tdx_gen_quote` returns `-1` with `quote_buf` and `*quote_size` untouched, and
the collector returns `-ENCLAVE_ATTESTER_ERR_INVALID`, which is not the success
code, with the whole envelope unchanged, so every byte of the quote buffer, at
an offset of 8192 or more as well as below, is the byte found on entry. -/
theorem quote_beyond_primary_region_fails (D : Decls) (w : World) (s : Sys)
    (ctx algo hash_len : Nat) (evidence : attestation_evidence_t) (h : Nat → Nat)
    (q : List Nat)
    (hassert : SHA256_HASH_SIZE ≤ D.TDX_REPORT_DATA_SIZE)
    (hcodes : -D.ENCLAVE_ATTESTER_ERR_INVALID ≠ D.ENCLAVE_ATTESTER_ERR_NONE)
    (hrep : w.tdx_att_get_report (report_data_of D h) = true)
    (hquote : w.tdx_att_get_quote (report_data_of D h) = some q)
    (hlong : 8192 < q.length) (hcap : evidence.tdx.quote_len ≤ 8192) :
    (∃ g : QuoteRet,
      tdx_gen_quote D w s (some h) evidence.tdx.quote evidence.tdx.quote_len = Exec.ret g ∧
      g.code = -1 ∧ g.quote_buf = evidence.tdx.quote ∧
      g.quote_size = evidence.tdx.quote_len) ∧
    (∃ r : Ret,
      tdx_ecdsa_collect_evidence D w s ctx evidence algo (some h) hash_len = Exec.ret r ∧
      r.code = -D.ENCLAVE_ATTESTER_ERR_INVALID ∧
      r.code ≠ D.ENCLAVE_ATTESTER_ERR_NONE ∧
      r.evidence = evidence ∧
      (∀ i, r.evidence.tdx.quote i = evidence.tdx.quote i) ∧
      (∀ i, 8192 ≤ i → r.evidence.tdx.quote i = evidence.tdx.quote i)) := by
  have hg := gen_quote_too_small D w s h evidence.tdx.quote evidence.tdx.quote_len q
    hassert hrep hquote (by omega)
  refine ⟨⟨_, hg, rfl, rfl, rfl⟩, ?_⟩
  refine ⟨⟨-D.ENCLAVE_ATTESTER_ERR_INVALID, after_driver s (report_data_of D h) q, evidence⟩,
    ?_, rfl, hcodes, rfl, fun _ => rfl, fun _ _ => rfl⟩
  unfold tdx_ecdsa_collect_evidence
  rw [hg]
  rfl

/-- Witness of C3 (amended): a 9000-byte quote offered to an envelope whose
`quote_len` holds 8192. -/
theorem quote_beyond_primary_region_fails_witness :
    (∃ g : QuoteRet,
      tdx_gen_quote sampleDecls (sampleWorld 9000 none none) sys0 (some zeroHash)
        (evidence0 8192).tdx.quote (evidence0 8192).tdx.quote_len = Exec.ret g ∧
      g.code = -1 ∧ g.quote_buf = (evidence0 8192).tdx.quote ∧
      g.quote_size = (evidence0 8192).tdx.quote_len) ∧
    (∃ r : Ret,
      tdx_ecdsa_collect_evidence sampleDecls (sampleWorld 9000 none none) sys0 0
        (evidence0 8192) 0 (some zeroHash) 32 = Exec.ret r ∧
      r.code = -sampleDecls.ENCLAVE_ATTESTER_ERR_INVALID ∧
      r.code ≠ sampleDecls.ENCLAVE_ATTESTER_ERR_NONE ∧
      r.evidence = evidence0 8192 ∧
      (∀ i, r.evidence.tdx.quote i = (evidence0 8192).tdx.quote i) ∧
      (∀ i, 8192 ≤ i → r.evidence.tdx.quote i = (evidence0 8192).tdx.quote i)) :=
  quote_beyond_primary_region_fails sampleDecls (sampleWorld 9000 none none) sys0 0 0 32
    (evidence0 8192) zeroHash (List.replicate 9000 0xAA) (by decide) (by decide) rfl rfl
    (by rw [List.length_replicate]; decide) (by decide)

/-- C4: when the info `open` succeeds and the info read returns any `k` other
than `0x38` (a short read or `-1`), `tdx_get_tdel_info` returns
`-ENCLAVE_ATTESTER_ERR_INVALID`, which is not the success code, and leaves the
envelope unchanged; a collection that reaches this read (non-null hash, driver
calls succeed, quote fits) then returns the same non-success code with `type`
unchanged, the envelope holding only the quote copy, and its calls end with the
info `open` and the info `read`: the data segment is neither opened nor read. -/
theorem info_size_mismatch_fails (D : Decls) (w : World) (s : Sys)
    (ctx algo hash_len : Nat) (evidence : attestation_evidence_t) (h : Nat → Nat)
    (q : List Nat)
    (hassert : SHA256_HASH_SIZE ≤ D.TDX_REPORT_DATA_SIZE)
    (hcodes : -D.ENCLAVE_ATTESTER_ERR_INVALID ≠ D.ENCLAVE_ATTESTER_ERR_NONE)
    (hrep : w.tdx_att_get_report (report_data_of D h) = true)
    (hquote : w.tdx_att_get_quote (report_data_of D h) = some q)
    (hfit : q.length ≤ evidence.tdx.quote_len)
    (hopen_info : 0 ≤ w.open_ret TDEL_INFO)
    (hk : (read_value w 0 TDEL_INFO_SZ).1 ≠ (TDEL_INFO_SZ : Int)) :
    (∃ r : Ret, tdx_get_tdel_info D w s ctx evidence = Exec.ret r ∧
      r.code = -D.ENCLAVE_ATTESTER_ERR_INVALID ∧
      r.code ≠ D.ENCLAVE_ATTESTER_ERR_NONE ∧
      r.evidence = evidence) ∧
    (∃ r : Ret,
      tdx_ecdsa_collect_evidence D w s ctx evidence algo (some h) hash_len = Exec.ret r ∧
      r.code ≠ D.ENCLAVE_ATTESTER_ERR_NONE ∧
      r.evidence.type = evidence.type ∧
      r.evidence.tdx.quote = copy_bytes evidence.tdx.quote 0 q q.length ∧
      r.sys.trace = s.trace ++ [Event.att_get_report (report_data_of D h),
        Event.att_get_quote (report_data_of D h), Event.att_free_quote q,
        Event.sys_open TDEL_INFO (w.open_ret TDEL_INFO),
        Event.sys_read 0 TDEL_INFO_SZ (read_value w 0 TDEL_INFO_SZ).1]) := by
  refine ⟨⟨_, tdel_info_mismatch D w s ctx evidence hopen_info hk, rfl, hcodes, rfl⟩, ?_⟩
  refine ⟨⟨-D.ENCLAVE_ATTESTER_ERR_INVALID,
      (sys_read w (sys_open w (after_driver s (report_data_of D h) q) TDEL_INFO).2 0
        TDEL_INFO_SZ).2.2,
      { evidence with tdx := { quote := copy_bytes evidence.tdx.quote 0 q q.length,
                               quote_len := q.length } }⟩, ?_, hcodes, rfl, rfl, ?_⟩
  · unfold tdx_ecdsa_collect_evidence
    rw [gen_quote_ok D w s h _ _ q hassert hrep hquote hfit]
    simp only [ne_eq, not_true_eq_false, if_false]
    rw [tdel_info_mismatch D w _ ctx _ hopen_info hk]
    simp only [ne_eq, hcodes, not_false_eq_true, if_true]
    rfl
  · simp [sys_read, sys_open, after_driver, Sys.log]

/-- Witness of C4: the info read delivers 20 bytes. -/
theorem info_size_mismatch_fails_witness :
    (∃ r : Ret, tdx_get_tdel_info sampleDecls
        (sampleWorld 4000 (some (List.replicate 20 1)) none) sys0 0 (evidence0 8192)
        = Exec.ret r ∧
      r.code = -sampleDecls.ENCLAVE_ATTESTER_ERR_INVALID ∧
      r.code ≠ sampleDecls.ENCLAVE_ATTESTER_ERR_NONE ∧
      r.evidence = evidence0 8192) ∧
    (∃ r : Ret,
      tdx_ecdsa_collect_evidence sampleDecls
        (sampleWorld 4000 (some (List.replicate 20 1)) none) sys0 0 (evidence0 8192) 0
        (some zeroHash) 32 = Exec.ret r ∧
      r.code ≠ sampleDecls.ENCLAVE_ATTESTER_ERR_NONE ∧
      r.evidence.type = (evidence0 8192).type ∧
      r.evidence.tdx.quote = copy_bytes (evidence0 8192).tdx.quote 0
        (List.replicate 4000 0xAA) (List.replicate 4000 0xAA).length ∧
      r.sys.trace = sys0.trace ++ [Event.att_get_report (report_data_of sampleDecls zeroHash),
        Event.att_get_quote (report_data_of sampleDecls zeroHash),
        Event.att_free_quote (List.replicate 4000 0xAA),
        Event.sys_open TDEL_INFO
          ((sampleWorld 4000 (some (List.replicate 20 1)) none).open_ret TDEL_INFO),
        Event.sys_read 0 TDEL_INFO_SZ
          (read_value (sampleWorld 4000 (some (List.replicate 20 1)) none) 0 TDEL_INFO_SZ).1]) :=
  info_size_mismatch_fails sampleDecls (sampleWorld 4000 (some (List.replicate 20 1)) none)
    sys0 0 0 32 (evidence0 8192) zeroHash (List.replicate 4000 0xAA) (by decide) (by decide)
    rfl rfl (by rw [List.length_replicate]; decide) (by decide)
    (by rw [read_value_some _ 0 TDEL_INFO_SZ (List.replicate 20 1) rfl
          (by rw [List.length_replicate]; decide), List.length_replicate]; decide)

/-- C5: for every non-null hash and every `hash_len`, the report data that
`tdx_gen_quote` hands to get-report has the size of the report-data field, its
first 32 bytes are `hash[0..32)` and all remaining bytes are zero; get-report
is the first call made, every call that carries report data carries this same
value, get-quote is called with it whenever get-report succeeds, and the
collector's result does not depend on `hash_len`. -/
theorem report_data_is_hash_then_zeros (D : Decls) (w : World) (s : Sys)
    (ctx algo : Nat) (evidence : attestation_evidence_t) (h : Nat → Nat)
    (qb : Nat → Nat) (qs : Nat)
    (hassert : SHA256_HASH_SIZE ≤ D.TDX_REPORT_DATA_SIZE) :
    (report_data_of D h).length = D.TDX_REPORT_DATA_SIZE ∧
    (report_data_of D h).take 32 = slice h 0 32 ∧
    (∀ i, 32 ≤ i → i < D.TDX_REPORT_DATA_SIZE → (report_data_of D h)[i]? = some 0) ∧
    (∃ (g : QuoteRet) (t : List Event),
      tdx_gen_quote D w s (some h) qb qs = Exec.ret g ∧
      g.sys.trace = s.trace ++ Event.att_get_report (report_data_of D h) :: t ∧
      (∀ e ∈ t, ∀ rd, Event.report_data? e = some rd → rd = report_data_of D h) ∧
      (w.tdx_att_get_report (report_data_of D h) = true →
        t.head? = some (Event.att_get_quote (report_data_of D h)))) ∧
    (∀ hash_len hash_len2 : Nat,
      tdx_ecdsa_collect_evidence D w s ctx evidence algo (some h) hash_len
        = tdx_ecdsa_collect_evidence D w s ctx evidence algo (some h) hash_len2) := by
  have h32 : SHA256_HASH_SIZE = 32 := rfl
  rw [h32] at hassert
  refine ⟨?_, ?_, ?_, ?_, fun _ _ => rfl⟩
  · simp [report_data_of, h32]; omega
  · simp [report_data_of, h32, slice]
  · intro i h1 h2
    simp only [report_data_of, h32]
    rw [List.getElem?_append_right (by simp; exact h1), List.length_map, List.length_range]
    exact List.getElem?_replicate_of_lt (by omega)
  · rw [← h32] at hassert
    cases hrep : w.tdx_att_get_report (report_data_of D h) with
    | false =>
      exact ⟨_, [], gen_quote_report_fail D w s h qb qs hassert hrep, by simp [Sys.log],
        by simp, by simp⟩
    | true =>
      cases hquote : w.tdx_att_get_quote (report_data_of D h) with
      | none =>
        exact ⟨_, [Event.att_get_quote (report_data_of D h)],
          gen_quote_quote_fail D w s h qb qs hassert hrep hquote, by simp [Sys.log],
          by simp [Event.report_data?], by simp⟩
      | some q =>
        by_cases hfit : q.length ≤ qs
        · exact ⟨_, [Event.att_get_quote (report_data_of D h), Event.att_free_quote q],
            gen_quote_ok D w s h qb qs q hassert hrep hquote hfit, by simp [Sys.log],
            by simp [Event.report_data?], by simp⟩
        · exact ⟨_, [Event.att_get_quote (report_data_of D h), Event.att_free_quote q],
            gen_quote_too_small D w s h qb qs q hassert hrep hquote (Nat.lt_of_not_le hfit),
            by simp [Sys.log], by simp [Event.report_data?], by simp⟩

/-- Witness of C5: the hash whose byte `i` is `i`, in the sample world. -/
theorem report_data_is_hash_then_zeros_witness :
    (report_data_of sampleDecls (fun i => i)).length = sampleDecls.TDX_REPORT_DATA_SIZE ∧
    (report_data_of sampleDecls (fun i => i)).take 32 = slice (fun i => i) 0 32 ∧
    (∀ i, 32 ≤ i → i < sampleDecls.TDX_REPORT_DATA_SIZE →
      (report_data_of sampleDecls (fun i => i))[i]? = some 0) ∧
    (∃ (g : QuoteRet) (t : List Event),
      tdx_gen_quote sampleDecls (sampleWorld 4000 none none) sys0 (some (fun i => i))
        (evidence0 8192).tdx.quote 8192 = Exec.ret g ∧
      g.sys.trace = sys0.trace
        ++ Event.att_get_report (report_data_of sampleDecls (fun i => i)) :: t ∧
      (∀ e ∈ t, ∀ rd, Event.report_data? e = some rd →
        rd = report_data_of sampleDecls (fun i => i)) ∧
      ((sampleWorld 4000 none none).tdx_att_get_report
          (report_data_of sampleDecls (fun i => i)) = true →
        t.head? = some (Event.att_get_quote (report_data_of sampleDecls (fun i => i))))) ∧
    (∀ hash_len hash_len2 : Nat,
      tdx_ecdsa_collect_evidence sampleDecls (sampleWorld 4000 none none) sys0 0
          (evidence0 8192) 0 (some (fun i => i)) hash_len
        = tdx_ecdsa_collect_evidence sampleDecls (sampleWorld 4000 none none) sys0 0
          (evidence0 8192) 0 (some (fun i => i)) hash_len2) :=
  report_data_is_hash_then_zeros sampleDecls (sampleWorld 4000 none none) sys0 0 0
    (evidence0 8192) (fun i => i) (evidence0 8192).tdx.quote 8192 (by decide)

/-- The collector returns one of two codes whenever it returns. -/
theorem collect_code_cases (D : Decls) (w : World) (s : Sys) (ctx algo hash_len : Nat)
    (evidence : attestation_evidence_t) (hash : Option (Nat → Nat)) (r : Ret)
    (hr : tdx_ecdsa_collect_evidence D w s ctx evidence algo hash hash_len = Exec.ret r) :
    r.code = D.ENCLAVE_ATTESTER_ERR_NONE ∨ r.code = -D.ENCLAVE_ATTESTER_ERR_INVALID := by
  unfold tdx_ecdsa_collect_evidence at hr
  split at hr
  · cases hr
  · dsimp only at hr
    split at hr
    · cases hr; exact Or.inr rfl
    · split at hr
      · cases hr
      · split at hr
        · cases hr; exact Or.inr rfl
        · split at hr
          · cases hr
          · split at hr
            · cases hr; exact Or.inr rfl
            · cases hr; exact Or.inl rfl

theorem collect_of_gen_fail (D : Decls) (w : World) (s : Sys) (ctx algo hash_len : Nat)
    (evidence : attestation_evidence_t) (hash : Option (Nat → Nat)) (g : QuoteRet)
    (hg : tdx_gen_quote D w s hash evidence.tdx.quote evidence.tdx.quote_len = Exec.ret g)
    (hc : g.code ≠ 0) :
    tdx_ecdsa_collect_evidence D w s ctx evidence algo hash hash_len
      = Exec.ret ⟨-D.ENCLAVE_ATTESTER_ERR_INVALID, g.sys,
          { evidence with tdx := { quote := g.quote_buf, quote_len := g.quote_size } }⟩ := by
  unfold tdx_ecdsa_collect_evidence
  rw [hg]
  simp only [ne_eq, hc, not_false_eq_true, if_true]

theorem collect_of_info_fail (D : Decls) (w : World) (s : Sys) (ctx algo hash_len : Nat)
    (evidence : attestation_evidence_t) (hash : Option (Nat → Nat)) (g : QuoteRet) (i : Ret)
    (hg : tdx_gen_quote D w s hash evidence.tdx.quote evidence.tdx.quote_len = Exec.ret g)
    (hc : g.code = 0)
    (hi : tdx_get_tdel_info D w g.sys ctx
      { evidence with tdx := { quote := g.quote_buf, quote_len := g.quote_size } } = Exec.ret i)
    (hic : i.code ≠ D.ENCLAVE_ATTESTER_ERR_NONE) :
    tdx_ecdsa_collect_evidence D w s ctx evidence algo hash hash_len
      = Exec.ret ⟨-D.ENCLAVE_ATTESTER_ERR_INVALID, i.sys, i.evidence⟩ := by
  unfold tdx_ecdsa_collect_evidence
  rw [hg]
  simp only [ne_eq, hc, not_true_eq_false, if_false]
  rw [hi]
  simp only [ne_eq, hic, not_false_eq_true, if_true]

theorem collect_of_data_fail (D : Decls) (w : World) (s : Sys) (ctx algo hash_len : Nat)
    (evidence : attestation_evidence_t) (hash : Option (Nat → Nat)) (g : QuoteRet) (i d : Ret)
    (hg : tdx_gen_quote D w s hash evidence.tdx.quote evidence.tdx.quote_len = Exec.ret g)
    (hc : g.code = 0)
    (hi : tdx_get_tdel_info D w g.sys ctx
      { evidence with tdx := { quote := g.quote_buf, quote_len := g.quote_size } } = Exec.ret i)
    (hic : i.code = D.ENCLAVE_ATTESTER_ERR_NONE)
    (hd : tdx_get_tdel_data D w i.sys ctx i.evidence = Exec.ret d)
    (hdc : d.code ≠ D.ENCLAVE_ATTESTER_ERR_NONE) :
    tdx_ecdsa_collect_evidence D w s ctx evidence algo hash hash_len
      = Exec.ret ⟨-D.ENCLAVE_ATTESTER_ERR_INVALID, d.sys, d.evidence⟩ := by
  unfold tdx_ecdsa_collect_evidence
  rw [hg]
  simp only [ne_eq, hc, not_true_eq_false, if_false]
  rw [hi]
  simp only [ne_eq, hic, not_true_eq_false, if_false]
  rw [hd]
  simp only [ne_eq, hdc, not_false_eq_true, if_true]

/-- Outcome of the collector when the data read does not fail: it returns,
with the success code exactly under `success_conditions`. -/
theorem collect_returns (D : Decls) (w : World) (s : Sys) (ctx algo hash_len : Nat)
    (evidence : attestation_evidence_t) (hash : Option (Nat → Nat))
    (hassert : SHA256_HASH_SIZE ≤ D.TDX_REPORT_DATA_SIZE)
    (hcodes : -D.ENCLAVE_ATTESTER_ERR_INVALID ≠ D.ENCLAVE_ATTESTER_ERR_NONE)
    (hdata : 0 ≤ (read_value w 0 TDEL_DATA_SZ).1) :
    ∃ r : Ret, tdx_ecdsa_collect_evidence D w s ctx evidence algo hash hash_len = Exec.ret r ∧
      ((success_conditions D w evidence hash ∧ r.code = D.ENCLAVE_ATTESTER_ERR_NONE ∧
          r.evidence.type = snprintf evidence.type D.TYPE_SIZE tdx_ecdsa_str ∧
          r.evidence.tdx.quote_len ≤ evidence.tdx.quote_len) ∨
       (¬ success_conditions D w evidence hash ∧ r.code = -D.ENCLAVE_ATTESTER_ERR_INVALID ∧
          r.evidence.type = evidence.type)) := by
  have m1 : (-1 : Int) ≠ 0 := by decide
  cases hash with
  | none =>
    refine ⟨_, collect_of_gen_fail D w s ctx algo hash_len evidence none _
      (gen_quote_null D w s _ _) m1, Or.inr ⟨?_, rfl, rfl⟩⟩
    rintro ⟨h, q, hh, -⟩
    cases hh
  | some h =>
    cases hrep : w.tdx_att_get_report (report_data_of D h) with
    | false =>
      refine ⟨_, collect_of_gen_fail D w s ctx algo hash_len evidence _ _
        (gen_quote_report_fail D w s h _ _ hassert hrep) m1, Or.inr ⟨?_, rfl, rfl⟩⟩
      rintro ⟨h2, q, hh, hr, -⟩
      cases hh
      rw [hrep] at hr
      cases hr
    | true =>
      cases hquote : w.tdx_att_get_quote (report_data_of D h) with
      | none =>
        refine ⟨_, collect_of_gen_fail D w s ctx algo hash_len evidence _ _
          (gen_quote_quote_fail D w s h _ _ hassert hrep hquote) m1, Or.inr ⟨?_, rfl, rfl⟩⟩
        rintro ⟨h2, q, hh, -, hq, -⟩
        cases hh
        rw [hquote] at hq
        cases hq
      | some q =>
        by_cases hfit : q.length ≤ evidence.tdx.quote_len
        swap
        · refine ⟨_, collect_of_gen_fail D w s ctx algo hash_len evidence _ _
            (gen_quote_too_small D w s h _ _ q hassert hrep hquote (Nat.lt_of_not_le hfit)) m1,
            Or.inr ⟨?_, rfl, rfl⟩⟩
          rintro ⟨h2, q2, hh, -, hq, hf, -⟩
          cases hh
          rw [hquote] at hq
          cases hq
          exact hfit hf
        have hg := gen_quote_ok D w s h evidence.tdx.quote evidence.tdx.quote_len q
          hassert hrep hquote hfit
        by_cases hoi : 0 ≤ w.open_ret TDEL_INFO
        swap
        · exact ⟨_, collect_of_info_fail D w s ctx algo hash_len evidence _ _ _ hg rfl
            (tdel_info_open_fail D w _ ctx _ (Int.lt_of_not_ge hoi)) hcodes,
            Or.inr ⟨fun ⟨_, _, _, _, _, _, ho, _⟩ => hoi ho, rfl, rfl⟩⟩
        by_cases hk : (read_value w 0 TDEL_INFO_SZ).1 = (TDEL_INFO_SZ : Int)
        swap
        · exact ⟨_, collect_of_info_fail D w s ctx algo hash_len evidence _ _ _ hg rfl
            (tdel_info_mismatch D w _ ctx _ hoi hk) hcodes,
            Or.inr ⟨fun ⟨_, _, _, _, _, _, _, _, hk2⟩ => hk hk2, rfl, rfl⟩⟩
        by_cases hod : 0 ≤ w.open_ret TDEL_DATA
        swap
        · exact ⟨_, collect_of_data_fail D w s ctx algo hash_len evidence _ _ _ _ hg rfl
            (tdel_info_ok D w _ ctx _ hoi hk) rfl
            (tdel_data_open_fail D w _ ctx _ (Int.lt_of_not_ge hod)) hcodes,
            Or.inr ⟨fun ⟨_, _, _, _, _, _, _, ho, _⟩ => hod ho, rfl, rfl⟩⟩
        exact ⟨_, collect_success_eq D w s ctx algo hash_len evidence h q hassert hrep hquote
          hfit hoi hod hk hdata, Or.inl ⟨⟨h, q, rfl, hrep, hquote, hfit, hoi, hod, hk⟩, rfl, rfl,
          hfit⟩⟩

/-- C6: for every input and every combination of driver and file outcomes in
which the data read does not fail, `tdx_ecdsa_collect_evidence` returns, either
`ENCLAVE_ATTESTER_ERR_NONE` with `type` holding `"tdx_ecdsa"` and the resulting
`quote_len` at most the `quote_len` found on entry, or
`-ENCLAVE_ATTESTER_ERR_INVALID` with `type` unchanged; and it returns the
success code if and only if the hash is non-null, get-report and get-quote
succeed, the quote fits the capacity, both opens succeed and the info read
yields exactly `0x38` bytes.  The three conditions on header constants say that
the source's `assert` holds, that the type buffer has room for the tag, and that
the two codes differ. -/
theorem collect_evidence_outcomes (D : Decls) (w : World) (s : Sys)
    (ctx algo hash_len : Nat) (evidence : attestation_evidence_t)
    (hash : Option (Nat → Nat))
    (hassert : SHA256_HASH_SIZE ≤ D.TDX_REPORT_DATA_SIZE)
    (htype : tdx_ecdsa_str.length + 1 ≤ D.TYPE_SIZE)
    (hcodes : -D.ENCLAVE_ATTESTER_ERR_INVALID ≠ D.ENCLAVE_ATTESTER_ERR_NONE)
    (hdata : 0 ≤ (read_value w 0 TDEL_DATA_SZ).1) :
    ∃ r : Ret, tdx_ecdsa_collect_evidence D w s ctx evidence algo hash hash_len = Exec.ret r ∧
      ((r.code = D.ENCLAVE_ATTESTER_ERR_NONE ∧
          slice r.evidence.type 0 (tdx_ecdsa_str.length + 1) = tdx_ecdsa_str ++ [0] ∧
          r.evidence.tdx.quote_len ≤ evidence.tdx.quote_len) ∨
       (r.code = -D.ENCLAVE_ATTESTER_ERR_INVALID ∧ r.evidence.type = evidence.type)) ∧
      (r.code = D.ENCLAVE_ATTESTER_ERR_NONE ↔
        ∃ (h : Nat → Nat) (q : List Nat), hash = some h ∧
          w.tdx_att_get_report (report_data_of D h) = true ∧
          w.tdx_att_get_quote (report_data_of D h) = some q ∧
          q.length ≤ evidence.tdx.quote_len ∧
          0 ≤ w.open_ret TDEL_INFO ∧ 0 ≤ w.open_ret TDEL_DATA ∧
          (read_value w 0 TDEL_INFO_SZ).1 = (TDEL_INFO_SZ : Int)) := by
  obtain ⟨r, hr, hcase⟩ :=
    collect_returns D w s ctx algo hash_len evidence hash hassert hcodes hdata
  refine ⟨r, hr, ?_, ?_⟩
  · rcases hcase with ⟨-, hc, ht, hl⟩ | ⟨-, hc, ht⟩
    · exact Or.inl ⟨hc, by rw [ht]; exact snprintf_tdx_ecdsa _ _ htype, hl⟩
    · exact Or.inr ⟨hc, ht⟩
  · rcases hcase with ⟨hs, hc, -, -⟩ | ⟨hs, hc, -⟩
    · exact ⟨fun _ => hs, fun _ => hc⟩
    · constructor
      · intro hn
        rw [hc] at hn
        exact absurd hn hcodes
      · intro hs2
        exact absurd hs2 hs

/-- Witness of C6: the null hash in the sample world. -/
theorem collect_evidence_outcomes_witness :
    ∃ r : Ret, tdx_ecdsa_collect_evidence sampleDecls
        (sampleWorld 4000 (some (List.replicate 56 1)) (some (List.replicate 100 2)))
        sys0 0 (evidence0 8192) 0 none 32 = Exec.ret r ∧
      ((r.code = sampleDecls.ENCLAVE_ATTESTER_ERR_NONE ∧
          slice r.evidence.type 0 (tdx_ecdsa_str.length + 1) = tdx_ecdsa_str ++ [0] ∧
          r.evidence.tdx.quote_len ≤ (evidence0 8192).tdx.quote_len) ∨
       (r.code = -sampleDecls.ENCLAVE_ATTESTER_ERR_INVALID ∧
          r.evidence.type = (evidence0 8192).type)) ∧
      (r.code = sampleDecls.ENCLAVE_ATTESTER_ERR_NONE ↔
        ∃ (h : Nat → Nat) (q : List Nat), (none : Option (Nat → Nat)) = some h ∧
          (sampleWorld 4000 (some (List.replicate 56 1))
            (some (List.replicate 100 2))).tdx_att_get_report
              (report_data_of sampleDecls h) = true ∧
          (sampleWorld 4000 (some (List.replicate 56 1))
            (some (List.replicate 100 2))).tdx_att_get_quote
              (report_data_of sampleDecls h) = some q ∧
          q.length ≤ (evidence0 8192).tdx.quote_len ∧
          0 ≤ (sampleWorld 4000 (some (List.replicate 56 1))
            (some (List.replicate 100 2))).open_ret TDEL_INFO ∧
          0 ≤ (sampleWorld 4000 (some (List.replicate 56 1))
            (some (List.replicate 100 2))).open_ret TDEL_DATA ∧
          (read_value (sampleWorld 4000 (some (List.replicate 56 1))
            (some (List.replicate 100 2))) 0 TDEL_INFO_SZ).1 = (TDEL_INFO_SZ : Int)) :=
  collect_evidence_outcomes sampleDecls
    (sampleWorld 4000 (some (List.replicate 56 1)) (some (List.replicate 100 2)))
    sys0 0 0 32 (evidence0 8192) none (by decide) (by decide) (by decide)
    (by rw [read_value_some _ 0 TDEL_DATA_SZ (List.replicate 100 2) rfl
          (by rw [List.length_replicate]; decide)]; exact Int.ofNat_nonneg _)

/-- C7 (the code leaves descriptors open): in the success scenario the process
starts with descriptors 0, 1, 2 open, the two opens return 3 and 4, and after
`tdx_ecdsa_collect_evidence` has returned the success code both are still open;
when the info read is short the function returns a failure code and 3 is still
open.  No `close` is issued on any path. -/
theorem collect_leaves_descriptors_open :
    (∃ r : Ret,
      tdx_ecdsa_collect_evidence sampleDecls
        (sampleWorld 4000 (some (List.replicate 56 1)) (some (List.replicate 100 2)))
        sys0 0 (evidence0 8192) 0 (some zeroHash) 32 = Exec.ret r ∧
      r.code = sampleDecls.ENCLAVE_ATTESTER_ERR_NONE ∧
      sys0.fds = [0, 1, 2] ∧ r.sys.fds = [4, 3, 0, 1, 2]) ∧
    (∃ r : Ret,
      tdx_ecdsa_collect_evidence sampleDecls
        (sampleWorld 4000 (some (List.replicate 20 1)) (some (List.replicate 100 2)))
        sys0 0 (evidence0 8192) 0 (some zeroHash) 32 = Exec.ret r ∧
      r.code = -sampleDecls.ENCLAVE_ATTESTER_ERR_INVALID ∧
      sys0.fds = [0, 1, 2] ∧ r.sys.fds = [3, 0, 1, 2]) := by
  have hlen : (List.replicate 4000 0xAA).length ≤ (evidence0 8192).tdx.quote_len := by
    rw [List.length_replicate]; decide
  constructor
  · have hvi := read_value_some
      (sampleWorld 4000 (some (List.replicate 56 1)) (some (List.replicate 100 2))) 0
      TDEL_INFO_SZ (List.replicate 56 1) rfl (by rw [List.length_replicate]; decide)
    have hvd := read_value_some
      (sampleWorld 4000 (some (List.replicate 56 1)) (some (List.replicate 100 2))) 0
      TDEL_DATA_SZ (List.replicate 100 2) rfl (by rw [List.length_replicate]; decide)
    rw [List.length_replicate] at hvi hvd
    exact ⟨_, collect_success_eq sampleDecls _ sys0 0 0 32 (evidence0 8192) zeroHash
      (List.replicate 4000 0xAA) (by decide) rfl rfl hlen (by decide) (by decide)
      (by rw [hvi]; rfl) (by rw [hvd]; decide), rfl, rfl, rfl⟩
  · have hvi := read_value_some
      (sampleWorld 4000 (some (List.replicate 20 1)) (some (List.replicate 100 2))) 0
      TDEL_INFO_SZ (List.replicate 20 1) rfl (by rw [List.length_replicate]; decide)
    rw [List.length_replicate] at hvi
    exact ⟨_, collect_of_info_fail sampleDecls _ sys0 0 0 32 (evidence0 8192) _ _ _
      (gen_quote_ok sampleDecls _ sys0 zeroHash _ _ (List.replicate 4000 0xAA) (by decide)
        rfl rfl hlen) rfl
      (tdel_info_mismatch sampleDecls _ _ 0 _ (by decide) (by rw [hvi]; decide))
      (by decide), rfl, rfl, rfl⟩

/-- Counterexample for C8: a run that fails because the hash is null (no
driver call is made) and a run that fails because get-report fails return the
same code. -/
theorem distinct_causes_same_code :
    ∃ r1 r2 : Ret,
      tdx_ecdsa_collect_evidence sampleDecls reportFailWorld sys0 0 (evidence0 8192) 0
        none 32 = Exec.ret r1 ∧
      tdx_ecdsa_collect_evidence sampleDecls reportFailWorld sys0 0 (evidence0 8192) 0
        (some zeroHash) 32 = Exec.ret r2 ∧
      r1.sys.trace = [] ∧
      r2.sys.trace = [Event.att_get_report (report_data_of sampleDecls zeroHash)] ∧
      reportFailWorld.tdx_att_get_report (report_data_of sampleDecls zeroHash) = false ∧
      r1.code ≠ sampleDecls.ENCLAVE_ATTESTER_ERR_NONE ∧
      r2.code ≠ sampleDecls.ENCLAVE_ATTESTER_ERR_NONE ∧
      r1.code = r2.code :=
  ⟨_, _, collect_of_gen_fail sampleDecls _ sys0 0 0 32 (evidence0 8192) none _
      (gen_quote_null sampleDecls _ sys0 _ _) (by decide),
    collect_of_gen_fail sampleDecls _ sys0 0 0 32 (evidence0 8192) (some zeroHash) _
      (gen_quote_report_fail sampleDecls _ sys0 zeroHash _ _ (by decide) rfl) (by decide),
    rfl, rfl, rfl, by decide, by decide, rfl⟩

/-- C8 (amended): failure is reported by one value.  Whenever two runs of
`tdx_ecdsa_collect_evidence` both return a code other than the success code,
whatever the inputs and the causes, both codes are
`-ENCLAVE_ATTESTER_ERR_INVALID`, hence equal. -/
theorem failures_share_one_code (D : Decls) (w1 w2 : World) (s1 s2 : Sys)
    (ctx1 ctx2 algo1 algo2 len1 len2 : Nat) (e1 e2 : attestation_evidence_t)
    (hash1 hash2 : Option (Nat → Nat)) (r1 r2 : Ret)
    (h1 : tdx_ecdsa_collect_evidence D w1 s1 ctx1 e1 algo1 hash1 len1 = Exec.ret r1)
    (h2 : tdx_ecdsa_collect_evidence D w2 s2 ctx2 e2 algo2 hash2 len2 = Exec.ret r2)
    (hf1 : r1.code ≠ D.ENCLAVE_ATTESTER_ERR_NONE)
    (hf2 : r2.code ≠ D.ENCLAVE_ATTESTER_ERR_NONE) :
    r1.code = -D.ENCLAVE_ATTESTER_ERR_INVALID ∧ r2.code = -D.ENCLAVE_ATTESTER_ERR_INVALID ∧
      r1.code = r2.code := by
  have c1 := (collect_code_cases D w1 s1 ctx1 algo1 len1 e1 hash1 r1 h1).resolve_left hf1
  have c2 := (collect_code_cases D w2 s2 ctx2 algo2 len2 e2 hash2 r2 h2).resolve_left hf2
  exact ⟨c1, c2, by rw [c1, c2]⟩

/-- Witness of C8 (amended): a null-hash run and a run whose quote is larger
than the capacity. -/
theorem failures_share_one_code_witness :
    ∃ r1 r2 : Ret,
      tdx_ecdsa_collect_evidence sampleDecls (sampleWorld 4000 none none) sys0 0
        (evidence0 8192) 0 none 32 = Exec.ret r1 ∧
      tdx_ecdsa_collect_evidence sampleDecls (sampleWorld 4000 none none) sys0 0
        (evidence0 100) 0 (some zeroHash) 32 = Exec.ret r2 ∧
      r1.code = -sampleDecls.ENCLAVE_ATTESTER_ERR_INVALID ∧
      r2.code = -sampleDecls.ENCLAVE_ATTESTER_ERR_INVALID ∧ r1.code = r2.code :=
  have h1 := collect_of_gen_fail sampleDecls (sampleWorld 4000 none none) sys0 0 0 32
    (evidence0 8192) none _ (gen_quote_null sampleDecls _ sys0 _ _) (by decide)
  have h2 := collect_of_gen_fail sampleDecls (sampleWorld 4000 none none) sys0 0 0 32
    (evidence0 100) (some zeroHash) _
    (gen_quote_too_small sampleDecls _ sys0 zeroHash _ _ (List.replicate 4000 0xAA)
      (by decide) rfl rfl (by rw [List.length_replicate]; decide)) (by decide)
  ⟨_, _, h1, h2, failures_share_one_code sampleDecls _ _ sys0 sys0 0 0 0 0 32 32 _ _ _ _ _ _
    h1 h2 (by decide) (by decide)⟩

/-- Counterexample for C10: standard input is closed and `open` returns
descriptor 0.  `fd` is assigned 0 and the read is issued on descriptor 0, which
is the descriptor `open` has just returned. -/
theorem read_hits_opened_descriptor_when_open_returns_zero :
    ∃ (r : Ret) (fd k : Int),
      tdx_get_tdel_info sampleDecls stdinClosedWorld stdinClosedSys 0 (evidence0 8192)
        = Exec.ret r ∧
      r.sys.trace = [Event.sys_open TDEL_INFO (stdinClosedWorld.open_ret TDEL_INFO),
        Event.sys_read fd TDEL_INFO_SZ k] ∧
      0 ≤ stdinClosedWorld.open_ret TDEL_INFO ∧
      fd = stdinClosedWorld.open_ret TDEL_INFO :=
  ⟨_, 0, _, tdel_info_mismatch sampleDecls stdinClosedWorld stdinClosedSys 0 (evidence0 8192)
    (by decide) (by decide), rfl, by decide, rfl⟩

theorem read_value_neg (w : World) (fd : Int) (count : Nat)
    (h : ¬ 0 ≤ (read_value w fd count).1) : w.read_ret fd count = none := by
  cases hr : w.read_ret fd count with
  | none => rfl
  | some b =>
    exfalso
    apply h
    simp [read_value, hr]

/-- C10 (amended): in both `tdx_get_tdel_info` and `tdx_get_tdel_data`, for
every result `r` of `open`: if `r < 0` the function returns
`-ENCLAVE_ATTESTER_ERR_INVALID` having made no call but the `open` and with the
envelope unchanged; if `r >= 0` the variable `fd` is assigned 0, the calls made
are the `open` followed by a `read` on descriptor 0, whatever `r` is, and `r` is
still in the table of open descriptors when execution ends. -/
theorem open_result_discarded (D : Decls) (w : World) (s : Sys) (ctx : Nat)
    (evidence : attestation_evidence_t) :
    (w.open_ret TDEL_INFO < 0 →
      tdx_get_tdel_info D w s ctx evidence
        = Exec.ret ⟨-D.ENCLAVE_ATTESTER_ERR_INVALID,
            ⟨s.trace ++ [Event.sys_open TDEL_INFO (w.open_ret TDEL_INFO)], s.fds⟩, evidence⟩) ∧
    (0 ≤ w.open_ret TDEL_INFO →
      fd_assigned (w.open_ret TDEL_INFO) = 0 ∧
      (Exec.sysOf Ret.sys (tdx_get_tdel_info D w s ctx evidence)).trace
        = s.trace ++ [Event.sys_open TDEL_INFO (w.open_ret TDEL_INFO),
            Event.sys_read 0 TDEL_INFO_SZ (read_value w 0 TDEL_INFO_SZ).1] ∧
      (Exec.sysOf Ret.sys (tdx_get_tdel_info D w s ctx evidence)).fds
        = w.open_ret TDEL_INFO :: s.fds) ∧
    (w.open_ret TDEL_DATA < 0 →
      tdx_get_tdel_data D w s ctx evidence
        = Exec.ret ⟨-D.ENCLAVE_ATTESTER_ERR_INVALID,
            ⟨s.trace ++ [Event.sys_open TDEL_DATA (w.open_ret TDEL_DATA)], s.fds⟩, evidence⟩) ∧
    (0 ≤ w.open_ret TDEL_DATA →
      fd_assigned (w.open_ret TDEL_DATA) = 0 ∧
      (Exec.sysOf Ret.sys (tdx_get_tdel_data D w s ctx evidence)).trace
        = s.trace ++ [Event.sys_open TDEL_DATA (w.open_ret TDEL_DATA),
            Event.sys_read 0 TDEL_DATA_SZ (read_value w 0 TDEL_DATA_SZ).1] ∧
      (Exec.sysOf Ret.sys (tdx_get_tdel_data D w s ctx evidence)).fds
        = w.open_ret TDEL_DATA :: s.fds) := by
  refine ⟨?_, ?_, ?_, ?_⟩
  · intro hneg
    rw [tdel_info_open_fail D w s ctx evidence hneg]
    simp [sys_open, Int.not_le.mpr hneg]
  · intro hpos
    refine ⟨by simp [fd_assigned, Int.not_lt.mpr hpos], ?_⟩
    by_cases hk : (read_value w 0 TDEL_INFO_SZ).1 = (TDEL_INFO_SZ : Int)
    · rw [tdel_info_ok D w s ctx evidence hpos hk]
      simp [Exec.sysOf, sys_read, sys_open, Sys.log, hpos]
    · rw [tdel_info_mismatch D w s ctx evidence hpos hk]
      simp [Exec.sysOf, sys_read, sys_open, Sys.log, hpos]
  · intro hneg
    rw [tdel_data_open_fail D w s ctx evidence hneg]
    simp [sys_open, Int.not_le.mpr hneg]
  · intro hpos
    refine ⟨by simp [fd_assigned, Int.not_lt.mpr hpos], ?_⟩
    by_cases hk : 0 ≤ (read_value w 0 TDEL_DATA_SZ).1
    · rw [tdel_data_ok D w s ctx evidence hpos hk]
      simp [Exec.sysOf, sys_read, sys_open, Sys.log, hpos]
    · rw [tdel_data_read_error D w s ctx evidence hpos (read_value_neg w 0 TDEL_DATA_SZ hk)]
      simp [Exec.sysOf, sys_read, sys_open, Sys.log, hpos]

/-- Witness of C10 (amended): a failing info `open`, and a data `open` that
returns descriptor 4, which the function leaves open. -/
theorem open_result_discarded_witness :
    tdx_get_tdel_info sampleDecls reportFailWorld sys0 0 (evidence0 8192)
      = Exec.ret ⟨-sampleDecls.ENCLAVE_ATTESTER_ERR_INVALID,
          ⟨sys0.trace ++ [Event.sys_open TDEL_INFO (reportFailWorld.open_ret TDEL_INFO)],
            sys0.fds⟩, evidence0 8192⟩ ∧
    (Exec.sysOf Ret.sys (tdx_get_tdel_data sampleDecls (sampleWorld 4000 none none) sys0 0
      (evidence0 8192))).fds = (sampleWorld 4000 none none).open_ret TDEL_DATA :: sys0.fds :=
  ⟨(open_result_discarded sampleDecls reportFailWorld sys0 0 (evidence0 8192)).1 (by decide),
   ((open_result_discarded sampleDecls (sampleWorld 4000 none none) sys0 0
      (evidence0 8192)).2.2.2 (by decide)).2.2⟩

end TdxEcdsa
